import Mathlib

/-!
Verification of `julia/pseudo_python_cli.py`: the argument splitter
`split_args` and the dispatcher `python` / `main`.

Python strings are modelled as `List Char` where character indexing
matters (the splitter) and as `String` elsewhere (the dispatcher).
-/

set_option autoImplicit false

namespace PseudoPythonCli

/-- A token of the argument vector, as a sequence of characters
(Python `str` indexing `a[1]` is positional). -/
abbrev Tok := List Char

/-- Python `a.startswith(p)`. -/
def startswith (a p : Tok) : Bool := p.isPrefixOf a

/--
Embedding of `split_args` (pseudo_python_cli.py lines 97-129).

```
it = iter(args)
py_args = []
for a in it:
    if a in ("-c", "-m"):
        py_args.append(a)
        try:
            a = next(it)
        except StopIteration:
            break
        py_args.append(a)
        break
    elif a == "-":
        py_args.append(a)
        break
    elif a.startswith("-"):
        py_args.append(a)
        if a[1] in ("c", "m"):
            break
    else:  # script
        py_args.append(a)
        break
return py_args, list(it)
```

`none` models an uncaught `IndexError` from `a[1]` (never reached;
see `split_args_total`).
-/
def split_args : List Tok → Option (List Tok × List Tok)
  | [] => some ([], [])
  | a :: rest =>
    if a = "-c".toList ∨ a = "-m".toList then
      match rest with
      | [] => some ([a], [])
      | b :: it => some ([a, b], it)
    else if a = "-".toList then
      some ([a], rest)
    else if startswith a ("-".toList) then
      match a[1]? with
      | none => none
      | some c =>
        if c = 'c' ∨ c = 'm' then
          some ([a], rest)
        else
          match split_args rest with
          | none => none
          | some (f, r) => some (a :: f, r)
    else
      some ([a], rest)


/-- Python exception classes, partitioned by what `except Exception`
catches: `exc` covers Exception subclasses (including UnboundLocalError);
SystemExit and KeyboardInterrupt derive only from BaseException and are
not caught by `except Exception`. -/
inductive PyErr
  | exc (name : String)
  | systemExit (code : Int)
  | keyboardInterrupt
deriving DecidableEq

/-- Does `except Exception` catch this error? -/
def isException : PyErr → Bool
  | PyErr.exc _ => true
  | PyErr.systemExit _ => false
  | PyErr.keyboardInterrupt => false

/-- A Python value held by the local `scope`: `None` or a namespace
dict, the latter abstract (type `σ`). -/
inductive PyVal (σ : Type)
  | none
  | dict (s : σ)
deriving DecidableEq

/-- The external execution backend (`exec` / `compile` / `runpy`),
abstract over the scope type `σ`. `execInline src s` models
`exec(src, s)` on a dict currently holding `s`: it returns the possibly
partially mutated dict together with the raised error, if any.
`compileSrc source displayName` models `compile(source, displayName,
"exec")`, returning the error it raises, if any. -/
structure Backend (σ : Type) where
  emptyScope : σ
  execInline : String → σ → σ × Option PyErr
  runModule : String → Except PyErr σ
  runPath : String → Except PyErr σ
  compileSrc : String → String → Option PyErr

/-- Python truthiness of an `Optional[str]`: `None` and `""` are falsy,
every other string is truthy. -/
def truthy : Option String → Bool
  | Option.none => false
  | some s => s ≠ ""

/-- Lines 16-20: `sys.argv[0] = "-c"` when `command` is truthy, else
`sys.argv[0] = script` when `script` is truthy, then
`sys.argv[1:] = script_args`. `argv0` is the head of the original
`sys.argv` (nonempty in-process). -/
def newArgv (command script : Option String) (argv0 : String)
    (script_args : List String) : List String :=
  (if truthy command then "-c"
   else if truthy script then script.getD "" else argv0) :: script_args

/-- State of `python`'s locals at the end of the `try` block (lines
22-42): `banner`, the possibly re-bound `interactive`, the local
`scope` (`Option.none` = never assigned, i.e. unbound), and the error
raised inside the block, if any. -/
structure TryOut (σ : Type) where
  banner : Option String
  inter : Bool
  scope : Option (PyVal σ)
  err : Option PyErr
deriving DecidableEq

/-- Lines 22-42: `banner = ""`, then the `if/elif` chain inside `try`.
In the `script == "-"` branch the code runs
`exec(compile(source, "<stdin>", "exec"), scope)` with the local
`scope` never assigned, so after a successful `compile` the argument
lookup of `scope` raises `UnboundLocalError` and `exec` never runs. -/
def tryBody {σ : Type} (B : Backend σ) (module command script : Option String)
    (interactive : Bool) (stdin : String) : TryOut σ :=
  if truthy command then
    let r := B.execInline (command.getD "") B.emptyScope
    ⟨some "", interactive, some (PyVal.dict r.1), r.2⟩
  else if truthy module then
    match B.runModule (module.getD "") with
    | Except.ok s => ⟨some "", interactive, some (PyVal.dict s), Option.none⟩
    | Except.error e => ⟨some "", interactive, Option.none, some e⟩
  else if script = some "-" then
    match B.compileSrc stdin "<stdin>" with
    | some e => ⟨some "", interactive, Option.none, some e⟩
    | Option.none =>
      ⟨some "", interactive, Option.none, some (PyErr.exc "UnboundLocalError")⟩
  else if truthy script then
    match B.runPath (script.getD "") with
    | Except.ok s => ⟨some "", interactive, some (PyVal.dict s), Option.none⟩
    | Except.error e => ⟨some "", interactive, Option.none, some e⟩
  else
    ⟨Option.none, true, some PyVal.none, Option.none⟩

/-- Observable outcome of one call to `python` (lines 15-49): the final
`sys.argv`, the tracebacks printed by `traceback.print_exc()`, the
`code.interact(banner=..., local=...)` call if one was made, and the
error propagating out of the function, if any. -/
structure PyResult (σ : Type) where
  argv : List String
  printed : List PyErr
  session : Option (Option String × PyVal σ)
  error : Option PyErr
deriving DecidableEq

/-- Lines 48-49: `if interactive: code.interact(banner=banner,
local=scope)`. Evaluating the argument `scope` when the local was never
assigned raises `UnboundLocalError` (uncaught here), so no session
starts. -/
def interactStep {σ : Type} (argvN : List String) (pr : List PyErr)
    (inter : Bool) (banner : Option String) (scope : Option (PyVal σ)) :
    PyResult σ :=
  if inter then
    match scope with
    | Option.none =>
      ⟨argvN, pr, Option.none, some (PyErr.exc "UnboundLocalError")⟩
    | some sc => ⟨argvN, pr, some (banner, sc), Option.none⟩
  else ⟨argvN, pr, Option.none, Option.none⟩

/-- Lines 43-49: `except Exception: if not interactive: raise;
traceback.print_exc()`, then the interactive step. SystemExit and
KeyboardInterrupt do not match `except Exception` and propagate at
once. -/
def afterTry {σ : Type} (argvN : List String) (t : TryOut σ) : PyResult σ :=
  match t.err with
  | some e =>
    if isException e then
      if t.inter then interactStep argvN [e] t.inter t.banner t.scope
      else ⟨argvN, [], Option.none, some e⟩
    else ⟨argvN, [], Option.none, some e⟩
  | Option.none => interactStep argvN [] t.inter t.banner t.scope

/-- Embedding of `python` (lines 15-49). -/
def python {σ : Type} (B : Backend σ) (module command script : Option String)
    (script_args : List String) (interactive : Bool)
    (argv0 : String) (stdin : String) : PyResult σ :=
  afterTry (newArgv command script argv0 script_args)
    (tryBody B module command script interactive stdin)

/-- Lines 143-150 of `main`: `except SystemExit as err: return err.code`;
`except Exception: traceback.print_exc(); return 1`; a normal return of
`python` yields exit status 0. KeyboardInterrupt matches neither clause
and escapes `main`. -/
def mainRet {σ : Type} (r : PyResult σ) : Except PyErr Int :=
  match r.error with
  | Option.none => Except.ok 0
  | some (PyErr.systemExit c) => Except.ok c
  | some (PyErr.exc _) => Except.ok 1
  | some PyErr.keyboardInterrupt => Except.error PyErr.keyboardInterrupt

/-- Does `main` print a traceback (its `except Exception` clause)? -/
def mainPrinted {σ : Type} (r : PyResult σ) : Bool :=
  match r.error with
  | some (PyErr.exc _) => true
  | some (PyErr.systemExit _) => false
  | some PyErr.keyboardInterrupt => false
  | Option.none => false

/-- A backend over `σ := Nat` whose operations all succeed. -/
def okB : Backend Nat where
  emptyScope := 0
  execInline := fun _ s => (s + 1, Option.none)
  runModule := fun _ => Except.ok 7
  runPath := fun _ => Except.ok 9
  compileSrc := fun _ _ => Option.none

/-- A backend whose operations raise ordinary exceptions. -/
def failB : Backend Nat where
  emptyScope := 0
  execInline := fun _ s => (s, some (PyErr.exc "ZeroDivisionError"))
  runModule := fun _ => Except.error (PyErr.exc "ImportError")
  runPath := fun _ => Except.error (PyErr.exc "FileNotFoundError")
  compileSrc := fun _ _ => some (PyErr.exc "SyntaxError")

/-- A backend whose operations raise `SystemExit(3)`. -/
def exitB : Backend Nat where
  emptyScope := 0
  execInline := fun _ s => (s, some (PyErr.systemExit 3))
  runModule := fun _ => Except.error (PyErr.systemExit 3)
  runPath := fun _ => Except.error (PyErr.systemExit 3)
  compileSrc := fun _ _ => some (PyErr.systemExit 3)

/-- Fatal outcome claimed for a backend failure with
`interactive = false`: the failure `e` propagates out of `python`
unchanged, no session starts, and `main` prints a traceback and returns
exit status 1. -/
def fatalOutcome {σ : Type} (r : PyResult σ) (e : PyErr) : Prop :=
  r.session = Option.none ∧ r.error = some e ∧
    mainRet r = Except.ok 1 ∧ mainPrinted r = true

/-- Outcome claimed for a SystemExit / KeyboardInterrupt raised by the
executed program: it propagates out of `python` with no session started
and no traceback printed there, and `main` maps a SystemExit to its own
exit code. -/
def baseExcOutcome {σ : Type} (r : PyResult σ) (e : PyErr) : Prop :=
  r.session = Option.none ∧ r.printed = [] ∧ r.error = some e ∧
    ∀ c : Int, e = PyErr.systemExit c → mainRet r = Except.ok c

end PseudoPythonCli

namespace PseudoPythonCli

/-- A token that starts with `'-'` but is not exactly `"-"` has a
character at index 1. -/
theorem second_char_exists (a : Tok) (hs : startswith a ("-".toList) = true)
    (hne : a ≠ "-".toList) : ∃ c t, a = '-' :: c :: t := by
  match a with
  | [] => simp [startswith, List.isPrefixOf] at hs
  | x :: t =>
    simp [startswith, List.isPrefixOf] at hs
    subst hs
    match t with
    | [] => exact absurd (by decide : ('-' :: ([] : List Char)) = "-".toList) hne
    | c :: t' => exact ⟨c, t', rfl⟩


/-- The `sys.argv` produced by `python` is the one computed from lines
16-20, whatever happens afterwards. -/
theorem afterTry_argv {σ : Type} (argvN : List String) (t : TryOut σ) :
    (afterTry argvN t).argv = argvN := by
  rcases t with ⟨bn, i, sc, e⟩
  rcases e with _ | e
  · cases i <;> cases sc <;> rfl
  · rcases e with n | c | _
    · cases i <;> cases sc <;> rfl
    · rfl
    · rfl

/-- In branches 1-4 the `banner` local keeps its initial value `""`. -/
theorem tryBody_banner_of_branch {σ : Type} (B : Backend σ)
    (module command script : Option String) (i : Bool) (stdin : String)
    (h : truthy command = true ∨ truthy module = true ∨ truthy script = true) :
    (tryBody B module command script i stdin).banner = some "" := by
  unfold tryBody
  split
  · rfl
  · split
    · cases hB : B.runModule (module.getD "") <;> rfl
    · split
      · cases hB : B.compileSrc stdin "<stdin>" <;> rfl
      · split
        · cases hB : B.runPath (script.getD "") <;> rfl
        · rename_i h1 h2 h3 h4
          rcases h with hc | hm | hs
          · exact absurd hc (by simpa using h1)
          · exact absurd hm (by simpa using h2)
          · exact absurd hs (by simpa using h4)

/-- A started session always receives the `banner` local of the try
block. -/
theorem afterTry_session_banner {σ : Type} (argvN : List String)
    (t : TryOut σ) (b : Option String) (sc : PyVal σ)
    (h : (afterTry argvN t).session = some (b, sc)) : b = t.banner := by
  rcases t with ⟨bn, i, s, e⟩
  rcases e with _ | e
  · cases i
    · simp [afterTry, interactStep] at h
    · cases s
      · simp [afterTry, interactStep] at h
      · simp [afterTry, interactStep] at h
        exact h.1.symm
  · rcases e with n | c | _
    · cases i
      · simp [afterTry, interactStep, isException] at h
      · cases s
        · simp [afterTry, interactStep, isException] at h
        · simp [afterTry, interactStep, isException] at h
          exact h.1.symm
    · simp [afterTry, interactStep, isException] at h
    · simp [afterTry, interactStep, isException] at h

end PseudoPythonCli

open PseudoPythonCli

/-- C1: for every argument vector `V`, if `split_args V = (F, R)` then
`F ++ R = V`: no token is duplicated, dropped, or reordered, so `F` is a
prefix of `V` and `R` is the remaining suffix in original order. -/
theorem split_args_partition (V F R : List Tok)
    (h : split_args V = some (F, R)) : F ++ R = V := by
  induction V generalizing F R with
  | nil =>
    simp [split_args] at h
    simp [h.1, h.2]
  | cons a rest ih =>
    simp only [split_args] at h
    split at h
    · match rest, h with
      | [], h =>
        simp at h
        obtain ⟨h1, h2⟩ := h
        subst h1; subst h2; simp
      | b :: it, h =>
        simp at h
        obtain ⟨h1, h2⟩ := h
        subst h1; subst h2; simp
    · split at h
      · simp at h
        obtain ⟨h1, h2⟩ := h
        subst h1; subst h2; simp
      · split at h
        · split at h
          · exact absurd h (by simp)
          · split at h
            · simp at h
              obtain ⟨h1, h2⟩ := h
              subst h1; subst h2; simp
            · cases hr : split_args rest with
              | none => rw [hr] at h; exact absurd h (by simp)
              | some p =>
                obtain ⟨f, r⟩ := p
                rw [hr] at h
                simp at h
                obtain ⟨h1, h2⟩ := h
                subst h1; subst h2
                simpa using ih f r hr
        · simp at h
          obtain ⟨h1, h2⟩ := h
          subst h1; subst h2; simp

/-- Closed witness for C1 at a concrete input. -/
theorem split_args_partition_witness :
    ["-i".toList, "x.py".toList] ++ ["a".toList] =
      ["-i".toList, "x.py".toList, "a".toList] :=
  split_args_partition ["-i".toList, "x.py".toList, "a".toList]
    ["-i".toList, "x.py".toList] ["a".toList] (by decide)

/-- C7: split_args returns exactly the pairs given by the spec's unit
examples, including the tolerated missing operand after a lone "-c". -/
theorem split_args_examples :
    split_args ["-i".toList, "script.py".toList, "arg".toList]
        = some (["-i".toList, "script.py".toList], ["arg".toList]) ∧
    split_args ["-mjson.tool".toList, "-h".toList]
        = some (["-mjson.tool".toList], ["-h".toList]) ∧
    split_args ["-c".toList] = some (["-c".toList], []) ∧
    split_args ["-".toList] = some (["-".toList], []) ∧
    split_args ([] : List Tok) = some ([], []) := by
  refine ⟨?_, ?_, ?_, ?_, ?_⟩ <;> rfl

/-- C9: split_args is total: the `a[1]` access in the bundled-flag branch
is always in bounds because a lone "-" is consumed by the earlier branch,
so `split_args` never returns the `none` that models an IndexError. -/
theorem split_args_total (V : List Tok) : (split_args V).isSome = true := by
  induction V with
  | nil => rfl
  | cons a rest ih =>
    simp only [split_args]
    split
    · cases rest <;> rfl
    · split
      · rfl
      · split
        · rename_i h1 h2 hs
          obtain ⟨c, t, ha⟩ := second_char_exists a hs h2
          subst ha
          rw [show ('-' :: c :: t)[1]? = some c by simp]
          split
          · rename_i heq; exact absurd heq (by simp)
          · rename_i c' heq
            split
            · rfl
            · cases hr : split_args rest with
              | none => rw [hr] at ih; simp at ih
              | some p => obtain ⟨f, r⟩ := p; simp
        · rfl

/-- C8: split_args is idempotent on its own front-end output: if
`split_args V = (F, R)` then `split_args F = (F, [])`. -/
theorem split_args_idem (V F R : List Tok) (h : split_args V = some (F, R)) :
    split_args F = some (F, []) := by
  induction V generalizing F R with
  | nil =>
    simp [split_args] at h
    obtain ⟨h1, h2⟩ := h
    subst h1; rfl
  | cons a rest ih =>
    simp only [split_args] at h
    split at h
    · rename_i hcm
      match rest, h with
      | [], h =>
        simp at h; obtain ⟨h1, h2⟩ := h; subst h1
        rcases hcm with rfl | rfl <;> rfl
      | b :: it, h =>
        simp at h; obtain ⟨h1, h2⟩ := h; subst h1
        rcases hcm with rfl | rfl <;> rfl
    · split at h
      · rename_i h1 hd
        simp at h; obtain ⟨h1', h2⟩ := h; subst h1'
        subst hd
        rfl
      · split at h
        · rename_i h1 h2 hs
          split at h
          · exact absurd h (by simp)
          · rename_i c heq
            split at h
            · rename_i hcm'
              simp at h; obtain ⟨h1', h2'⟩ := h; subst h1'
              rcases hcm' with rfl | rfl <;> simp [split_args, h1, h2, hs, heq]
            · rename_i hcm'
              cases hr : split_args rest with
              | none => rw [hr] at h; exact absurd h (by simp)
              | some p =>
                obtain ⟨f, r⟩ := p
                rw [hr] at h
                simp at h
                obtain ⟨h1', h2'⟩ := h
                subst h1'; subst h2'
                have hrec := ih f r hr
                simp at h1 h2 hs
                simp [split_args, h1, h2, hs, heq, hcm', hrec]
        · rename_i h1 h2 hns
          simp at h; obtain ⟨h1', h2'⟩ := h; subst h1'
          simp at h1 h2 hns
          simp [split_args, h1, h2, hns]

/-- Closed witness for C8 at a concrete input. -/
theorem split_args_idem_witness :
    split_args ["-i".toList, "x.py".toList] =
      some (["-i".toList, "x.py".toList], []) :=
  split_args_idem ["-i".toList, "x.py".toList, "a".toList]
    ["-i".toList, "x.py".toList] ["a".toList] (by decide)

/-- C2 (failing input): module execution fails with `interactive = true`:
the traceback is printed, but no interactive session starts — the local
`scope` was never assigned, so the argument lookup in
`code.interact(banner=banner, local=scope)` raises `UnboundLocalError`,
which propagates instead of "treating a never-created scope as empty". -/
theorem python_module_failure_interactive_crashes :
    python failB (some "mod") Option.none Option.none ["x"] true "py" "" =
      ⟨["py", "x"], [PyErr.exc "ImportError"], Option.none,
        some (PyErr.exc "UnboundLocalError")⟩ := rfl

/-- C4 (failing input): `script == "-"` with a successfully compiling
stdin program: the code reads stdin and compiles it under the display
name "<stdin>", but never executes it — the local `scope` was never
assigned, so its lookup in `exec(compile(...), scope)` raises
`UnboundLocalError`, which propagates (`interactive = false`). -/
theorem python_stdin_unbound_scope :
    python okB Option.none Option.none (some "-") ["a"] false "py" "x = 1" =
      ⟨["-", "a"], [], Option.none, some (PyErr.exc "UnboundLocalError")⟩ :=
  rfl

/-- C5 counterexample: with `script = "-"` (stdin execution) the code
does overwrite position 0 of the forwarded arguments: `elif script:` is
truthy for "-", so `sys.argv[0]` becomes "-", not the original value. -/
theorem python_stdin_argv0_counterexample :
    (python okB Option.none Option.none (some "-") ["a"] false "orig" "").argv
        = ["-", "a"] ∧ ("-" : String) ≠ "orig" :=
  ⟨rfl, by decide⟩

/-- C5 amended: position 0 of the forwarded arguments is overwritten in
branch 1 (to the sentinel "-c") and whenever `script` is truthy —
branches 3 and 4 — to the script value, which is "-" for stdin
execution; module execution (and branch 5) keeps position 0 as-is; the
remaining forwarded arguments occupy positions 1 and onward unchanged. -/
theorem python_argv_frame {σ : Type} (B : Backend σ)
    (module command script : Option String) (sa : List String)
    (i : Bool) (argv0 stdin : String) :
    (truthy command = true →
      (python B module command script sa i argv0 stdin).argv = "-c" :: sa) ∧
    (truthy command = false → truthy script = true →
      (python B module command script sa i argv0 stdin).argv
        = script.getD "" :: sa) ∧
    (truthy command = false → truthy script = false →
      (python B module command script sa i argv0 stdin).argv
        = argv0 :: sa) := by
  refine ⟨fun hc => ?_, fun hc hs => ?_, fun hc hs => ?_⟩
  · simp [python, afterTry_argv, newArgv, hc]
  · simp [python, afterTry_argv, newArgv, hc, hs]
  · simp [python, afterTry_argv, newArgv, hc, hs]

/-- Closed witness for the amended C5 at concrete inputs, one per case. -/
theorem python_argv_frame_witness :
    (python okB Option.none (some "1/0") Option.none ["z"] false "py"
        "").argv = "-c" :: ["z"] ∧
    (python okB Option.none Option.none (some "s.py") ["z"] false "py"
        "").argv = "s.py" :: ["z"] ∧
    (python okB (some "json.tool") Option.none Option.none ["z"] false "py"
        "").argv = "py" :: ["z"] :=
  ⟨(python_argv_frame okB Option.none (some "1/0") Option.none ["z"] false
      "py" "").1 (by decide),
   (python_argv_frame okB Option.none Option.none (some "s.py") ["z"] false
      "py" "").2.1 (by decide) (by decide),
   (python_argv_frame okB (some "json.tool") Option.none Option.none ["z"]
      false "py" "").2.2 (by decide) (by decide)⟩

/-- C3 counterexample: in branch 5 the code sets `banner = None`
(source comment: "show banner"), so the session starts with the
backend-default banner marker `Option.none`, not the blank marker
`some ""` the claim asserts. -/
theorem python_branch5_banner_counterexample :
    (python okB Option.none Option.none Option.none [] false "py" "").session
        = some (Option.none, PyVal.none) ∧
    (Option.none : Option String) ≠ some "" :=
  ⟨rfl, by decide⟩

/-- C3 amended: when none of command/module/script is truthy (branch 5)
dispatch forces interactive mode and starts the session with the scope
bound to `None` (a fresh namespace) and `banner = None` — the
backend-default marker, which shows the banner; branches 1-4 reaching
the interactive step always pass `banner = ""`, suppressing it. -/
theorem python_banner {σ : Type} (B : Backend σ)
    (module command script : Option String) (sa : List String)
    (i : Bool) (argv0 stdin : String) :
    (truthy command = false → truthy module = false → truthy script = false →
      (python B module command script sa i argv0 stdin).session
          = some (Option.none, PyVal.none) ∧
      (python B module command script sa i argv0 stdin).error
          = Option.none) ∧
    (truthy command = true ∨ truthy module = true ∨ truthy script = true →
      ∀ b sc,
        (python B module command script sa i argv0 stdin).session
            = some (b, sc) → b = some "") := by
  constructor
  · intro hc hm hs
    have hsd : script ≠ some "-" := by
      intro he; subst he; simp [truthy] at hs
    simp [python, tryBody, afterTry, interactStep, newArgv, hc, hm, hs, hsd]
  · intro hbr b sc hsess
    simp only [python] at hsess
    have hb := afterTry_session_banner _ _ b sc hsess
    rw [tryBody_banner_of_branch B module command script i stdin hbr] at hb
    exact hb

/-- Closed witness for the amended C3: branch 5 at a concrete input, and
a branch-1 interactive session with its empty-string banner. -/
theorem python_banner_witness :
    ((python okB Option.none Option.none Option.none [] false "py"
          "").session = some (Option.none, PyVal.none) ∧
      (python okB Option.none Option.none Option.none [] false "py"
          "").error = Option.none) ∧
    (some "" : Option String) = some "" :=
  ⟨(python_banner okB Option.none Option.none Option.none [] false "py"
      "").1 (by decide) (by decide) (by decide),
   (python_banner okB Option.none (some "1+1") Option.none [] true "py"
      "").2 (Or.inl (by decide)) (some "") (PyVal.dict 1) rfl⟩

/-- C6: in branches 1-4 with `interactive = false`, a backend failure
that is an ordinary exception propagates to the caller unchanged, no
interactive session starts, and `main` prints the traceback and returns
exit status 1 (non-zero). -/
theorem python_noninteractive_failure_propagates {σ : Type} (B : Backend σ)
    (module command script : Option String) (sa : List String)
    (argv0 stdin : String) (e : PyErr) (he : isException e = true) :
    (truthy command = true →
      ∀ s, B.execInline (command.getD "") B.emptyScope = (s, some e) →
      fatalOutcome (python B module command script sa false argv0 stdin) e) ∧
    (truthy command = false → truthy module = true →
      B.runModule (module.getD "") = Except.error e →
      fatalOutcome (python B module command script sa false argv0 stdin) e) ∧
    (truthy command = false → truthy module = false → script = some "-" →
      B.compileSrc stdin "<stdin>" = some e →
      fatalOutcome (python B module command script sa false argv0 stdin) e) ∧
    (truthy command = false → truthy module = false → script ≠ some "-" →
      truthy script = true → B.runPath (script.getD "") = Except.error e →
      fatalOutcome (python B module command script sa false argv0 stdin) e) := by
  rcases e with n | c | _
  · refine ⟨fun hc s hB => ?_, fun hc hm hB => ?_, fun hc hm hsd hB => ?_,
      fun hc hm hsd hs hB => ?_⟩
    · simp [fatalOutcome, python, tryBody, afterTry, interactStep, newArgv,
        mainRet, mainPrinted, isException, hc, hB]
    · simp [fatalOutcome, python, tryBody, afterTry, interactStep, newArgv,
        mainRet, mainPrinted, isException, hc, hm, hB]
    · simp [fatalOutcome, python, tryBody, afterTry, interactStep, newArgv,
        mainRet, mainPrinted, isException, hc, hm, hsd, hB]
    · simp [fatalOutcome, python, tryBody, afterTry, interactStep, newArgv,
        mainRet, mainPrinted, isException, hc, hm, hsd, hs, hB]
  · simp [isException] at he
  · simp [isException] at he

/-- Closed witness for C6: a failing inline command with
`interactive = false`. -/
theorem python_noninteractive_failure_propagates_witness :
    fatalOutcome (python failB Option.none (some "1/0") Option.none ["x"]
      false "py" "") (PyErr.exc "ZeroDivisionError") :=
  (python_noninteractive_failure_propagates failB Option.none (some "1/0")
      Option.none ["x"] "py" "" (PyErr.exc "ZeroDivisionError")
      (by decide)).1 (by decide) 0 rfl

/-- C10: `except Exception` does not catch SystemExit or
KeyboardInterrupt: such a failure raised by the executed command,
module, or script propagates out of `python` even with
`interactive = true`, no session starts and `python` prints nothing,
and `main` converts a propagated SystemExit into that exit's own code. -/
theorem python_base_exception_propagates {σ : Type} (B : Backend σ)
    (module command script : Option String) (sa : List String)
    (argv0 stdin : String) (e : PyErr) (he : isException e = false) :
    (truthy command = true →
      ∀ s, B.execInline (command.getD "") B.emptyScope = (s, some e) →
      baseExcOutcome (python B module command script sa true argv0 stdin) e) ∧
    (truthy command = false → truthy module = true →
      B.runModule (module.getD "") = Except.error e →
      baseExcOutcome (python B module command script sa true argv0 stdin) e) ∧
    (truthy command = false → truthy module = false → script = some "-" →
      B.compileSrc stdin "<stdin>" = some e →
      baseExcOutcome (python B module command script sa true argv0 stdin) e) ∧
    (truthy command = false → truthy module = false → script ≠ some "-" →
      truthy script = true → B.runPath (script.getD "") = Except.error e →
      baseExcOutcome (python B module command script sa true argv0 stdin) e) := by
  rcases e with n | c | _
  · simp [isException] at he
  · refine ⟨fun hc s hB => ?_, fun hc hm hB => ?_, fun hc hm hsd hB => ?_,
      fun hc hm hsd hs hB => ?_⟩
    · simp [baseExcOutcome, python, tryBody, afterTry, interactStep, newArgv,
        mainRet, isException, hc, hB]
    · simp [baseExcOutcome, python, tryBody, afterTry, interactStep, newArgv,
        mainRet, isException, hc, hm, hB]
    · simp [baseExcOutcome, python, tryBody, afterTry, interactStep, newArgv,
        mainRet, isException, hc, hm, hsd, hB]
    · simp [baseExcOutcome, python, tryBody, afterTry, interactStep, newArgv,
        mainRet, isException, hc, hm, hsd, hs, hB]
  · refine ⟨fun hc s hB => ?_, fun hc hm hB => ?_, fun hc hm hsd hB => ?_,
      fun hc hm hsd hs hB => ?_⟩
    · simp [baseExcOutcome, python, tryBody, afterTry, interactStep, newArgv,
        mainRet, isException, hc, hB]
    · simp [baseExcOutcome, python, tryBody, afterTry, interactStep, newArgv,
        mainRet, isException, hc, hm, hB]
    · simp [baseExcOutcome, python, tryBody, afterTry, interactStep, newArgv,
        mainRet, isException, hc, hm, hsd, hB]
    · simp [baseExcOutcome, python, tryBody, afterTry, interactStep, newArgv,
        mainRet, isException, hc, hm, hsd, hs, hB]

/-- Closed witness for C10: an inline command raising `SystemExit(3)`
with `interactive = true`. -/
theorem python_base_exception_propagates_witness :
    baseExcOutcome (python exitB Option.none (some "raise SystemExit(3)")
      Option.none ["x"] true "py" "") (PyErr.systemExit 3) :=
  (python_base_exception_propagates exitB Option.none
      (some "raise SystemExit(3)") Option.none ["x"] "py" ""
      (PyErr.systemExit 3) (by decide)).1 (by decide) 0 rfl
